import Mathlib

/-!
Verification of the sentiment-analysis MCP server `servidor_sentimentos.py`.

The classifier (a HuggingFace pipeline over the GoEmotions model) is opaque:
it maps a text to a list of scored labels.  Everything the server itself does
is deterministic post-processing of that list: sorting by score, slicing,
thresholding into confidence tiers, translating labels, and formatting
percentages.  We embed that post-processing here.  Python floats are modelled
as rationals (the code only compares scores and applies `round(x, 2)`; at
exact midpoints Python rounds half-to-even while `round` here rounds half-up,
a point none of the verified properties touch).  Fallible code paths (list
indexing `[0]` on a possibly-empty list) are modelled with `Option`.
-/

/-- A scored label produced by the classifier: one entry of `modelo(texto)[0]`,
a dict with a `label` and a `score`. -/
structure ScoredLabel where
  label : String
  score : ℚ
deriving DecidableEq

/-- The translation table `TRADUCAO_EMOCOES` of `servidor_sentimentos.py`,
mapping the 28 GoEmotions labels to Portuguese display names. -/
def TRADUCAO_EMOCOES : List (String × String) := [
  ("admiration", "admiração"),
  ("amusement", "diversão"),
  ("anger", "raiva"),
  ("annoyance", "irritação"),
  ("approval", "aprovação"),
  ("caring", "cuidado"),
  ("confusion", "confusão"),
  ("curiosity", "curiosidade"),
  ("desire", "desejo"),
  ("disappointment", "decepção"),
  ("disapproval", "desaprovação"),
  ("disgust", "nojo"),
  ("embarrassment", "vergonha"),
  ("excitement", "empolgação"),
  ("fear", "medo"),
  ("gratitude", "gratidão"),
  ("grief", "tristeza profunda"),
  ("joy", "alegria"),
  ("love", "amor"),
  ("nervousness", "nervosismo"),
  ("optimism", "otimismo"),
  ("pride", "orgulho"),
  ("realization", "percepção"),
  ("relief", "alívio"),
  ("remorse", "remorso"),
  ("sadness", "tristeza"),
  ("surprise", "surpresa"),
  ("neutral", "neutro")]

/-- Python `TRADUCAO_EMOCOES.get(label, label)`: dictionary lookup with the
original label as the fallback default. -/
def TRADUCAO_get (label : String) : String :=
  (TRADUCAO_EMOCOES.lookup label).getD label

/-- Python `sorted(resultados, key=lambda x: x['score'], reverse=True)`:
stable sort, non-increasing by score. -/
def ordenarPorScore (resultados : List ScoredLabel) : List ScoredLabel :=
  resultados.mergeSort fun a b => decide (b.score ≤ a.score)

/-- Python `round(x, ndigits)` on rationals: round to `ndigits` decimal
places (half-up here; Python floats round half-to-even at exact midpoints,
which no verified property depends on). -/
def pyRound (x : ℚ) (ndigits : ℕ) : ℚ :=
  ((round (x * 10 ^ ndigits) : ℤ) : ℚ) / 10 ^ ndigits

/-- The f-string `f"{round(score * 100, 2)}%"` used for every percentage
field of the three tools. -/
def fmtPct (score : ℚ) : String :=
  toString (pyRound (score * 100) 2) ++ "%"

/-- Python slice `l[:k]` for an arbitrary integer `k`: a nonnegative `k`
takes the first `k` elements, a negative `k` drops the last `|k|`. -/
def pySliceTo (l : List α) (k : ℤ) : List α :=
  if 0 ≤ k then l.take k.toNat else l.take (l.length - (-k).toNat)

/-- One entry of `top_emocoes` in `analisar_sentimento` (lines 152-157). -/
structure EmocaoTop where
  emocao : String
  emocao_original : String
  probabilidade : ℚ
  porcentagem : String
deriving DecidableEq

/-- The per-label formatter inside the `top_emocoes` list comprehension of
`analisar_sentimento`. -/
def formatEmocaoTop (r : ScoredLabel) : EmocaoTop :=
  { emocao := TRADUCAO_get r.label
    emocao_original := r.label
    probabilidade := pyRound (r.score * 100) 2
    porcentagem := fmtPct r.score }

/-- The response dict of `analisar_sentimento` (lines 146-165). -/
structure RespostaAnalise where
  texto_analisado : String
  total_emocoes : ℕ
  top_emocoes : List EmocaoTop
  emocao_dominante : String
  emocao_dominante_original : String
  confianca_dominante : String
deriving DecidableEq

/-- Tool 1, `analisar_sentimento(texto, top_k=5)`, applied to the classifier
output `resultados` for `texto`.  The accesses `top_resultados[0]` raise
`IndexError` when the slice is empty, modelled by `none`. -/
def analisar_sentimento (texto : String) (resultados : List ScoredLabel)
    (top_k : ℤ) : Option RespostaAnalise :=
  let resultados_ordenados := ordenarPorScore resultados
  let top_resultados := pySliceTo resultados_ordenados top_k
  match top_resultados with
  | [] => none
  | r0 :: resto =>
    some {
      texto_analisado := texto
      total_emocoes := resultados.length
      top_emocoes := (r0 :: resto).map formatEmocaoTop
      emocao_dominante := TRADUCAO_get r0.label
      emocao_dominante_original := r0.label
      confianca_dominante := fmtPct r0.score }

/-- The tier tag computed at line 233:
`"alta" if score >= 0.5 else "média" if score >= 0.1 else "baixa"`. -/
def nivelDe (score : ℚ) : String :=
  if (1 : ℚ) / 2 ≤ score then "alta"
  else if (1 : ℚ) / 10 ≤ score then "média"
  else "baixa"

/-- One entry of `todas_emocoes` in `analisar_sentimento_detalhado`
(lines 227-234). -/
structure EmocaoDetalhada where
  emocao : String
  emocao_original : String
  probabilidade : ℚ
  porcentagem : String
  nivel : String
deriving DecidableEq

/-- The per-label formatter inside the `todas_emocoes` list comprehension. -/
def formatEmocaoDetalhada (r : ScoredLabel) : EmocaoDetalhada :=
  { emocao := TRADUCAO_get r.label
    emocao_original := r.label
    probabilidade := pyRound (r.score * 100) 2
    porcentagem := fmtPct r.score
    nivel := nivelDe r.score }

/-- The `resumo` sub-dict of `analisar_sentimento_detalhado` (lines 219-223). -/
structure ResumoConfianca where
  emocoes_alta_confianca : ℕ
  emocoes_media_confianca : ℕ
  emocoes_baixa_confianca : ℕ
deriving DecidableEq

/-- The response dict of `analisar_sentimento_detalhado` (lines 210-237). -/
structure RespostaDetalhada where
  texto_analisado : String
  emocao_dominante : String
  emocao_dominante_original : String
  confianca_dominante : String
  resumo : ResumoConfianca
  todas_emocoes : List EmocaoDetalhada
deriving DecidableEq

/-- Tool 2, `analisar_sentimento_detalhado(texto)`, applied to the classifier
output `resultados`.  The access `resultados_ordenados[0]` fails on an empty
list, modelled by `none`. -/
def analisar_sentimento_detalhado (texto : String)
    (resultados : List ScoredLabel) : Option RespostaDetalhada :=
  let resultados_ordenados := ordenarPorScore resultados
  let alta_probabilidade :=
    resultados_ordenados.filter fun r => decide ((1 : ℚ) / 2 ≤ r.score)
  let media_probabilidade :=
    resultados_ordenados.filter fun r =>
      decide ((1 : ℚ) / 10 ≤ r.score ∧ r.score < (1 : ℚ) / 2)
  let baixa_probabilidade :=
    resultados_ordenados.filter fun r => decide (r.score < (1 : ℚ) / 10)
  match resultados_ordenados with
  | [] => none
  | r0 :: _ =>
    some {
      texto_analisado := texto
      emocao_dominante := TRADUCAO_get r0.label
      emocao_dominante_original := r0.label
      confianca_dominante := fmtPct r0.score
      resumo := {
        emocoes_alta_confianca := alta_probabilidade.length
        emocoes_media_confianca := media_probabilidade.length
        emocoes_baixa_confianca := baixa_probabilidade.length }
      todas_emocoes := resultados_ordenados.map formatEmocaoDetalhada }

/-- One entry of `top_3_emocoes` in `comparar_sentimentos` (lines 292-296).
Note that its `probabilidade` field is the formatted percentage STRING
(`f"{round(score * 100, 2)}%"`), unlike the numeric `probabilidade` of the
other two tools. -/
structure EmocaoTop3 where
  emocao : String
  emocao_original : String
  probabilidade : String
deriving DecidableEq

/-- The per-label formatter inside the `top_3_emocoes` list comprehension. -/
def formatEmocaoTop3 (r : ScoredLabel) : EmocaoTop3 :=
  { emocao := TRADUCAO_get r.label
    emocao_original := r.label
    probabilidade := fmtPct r.score }

/-- One entry of `analises` in `comparar_sentimentos` (lines 280-299). -/
structure AnaliseTexto where
  texto_numero : ℕ
  texto : String
  emocao_dominante : String
  emocao_dominante_original : String
  confianca : String
  top_3_emocoes : List EmocaoTop3
deriving DecidableEq

/-- The response dict of `comparar_sentimentos` (lines 302-305). -/
structure RespostaComparacao where
  total_textos_analisados : ℕ
  analises : List AnaliseTexto
deriving DecidableEq

/-- The loop body of `comparar_sentimentos` for one text at 1-based index
`idx`: sort the classifier output and build the analysis entry.  The access
`resultados_ordenados[0]` fails on an empty list, modelled by `none`. -/
def analiseDe (idx : ℕ) (texto : String) (resultados : List ScoredLabel) :
    Option AnaliseTexto :=
  let resultados_ordenados := ordenarPorScore resultados
  match resultados_ordenados with
  | [] => none
  | r0 :: resto =>
    some {
      texto_numero := idx
      texto := texto
      emocao_dominante := TRADUCAO_get r0.label
      emocao_dominante_original := r0.label
      confianca := fmtPct r0.score
      top_3_emocoes := ((r0 :: resto).take 3).map formatEmocaoTop3 }

/-- The `for idx, texto in enumerate(textos, 1)` loop of
`comparar_sentimentos`, accumulating the `analises` list. -/
def analisesDe (modelo : String → List ScoredLabel) :
    List String → ℕ → Option (List AnaliseTexto)
  | [], _ => some []
  | t :: ts, idx => do
    let a ← analiseDe idx t (modelo t)
    let resto ← analisesDe modelo ts (idx + 1)
    return a :: resto

/-- Tool 3, `comparar_sentimentos(textos)`, with the classifier abstracted as
`modelo`. -/
def comparar_sentimentos (textos : List String)
    (modelo : String → List ScoredLabel) : Option RespostaComparacao :=
  (analisesDe modelo textos 1).map fun analises =>
    { total_textos_analisados := textos.length
      analises := analises }

/-- The pipeline object built by `inicializar_modelo` (lines 95-99), recorded
by its construction arguments. -/
structure Pipeline where
  task : String
  model : String
  top_k : Option ℕ
deriving DecidableEq

/-- The pipeline constructed on first initialization:
`pipeline(task="text-classification", model="SamLowe/roberta-base-go_emotions", top_k=None)`. -/
def pipelineGoEmotions : Pipeline :=
  { task := "text-classification"
    model := "SamLowe/roberta-base-go_emotions"
    top_k := none }

/-- The function `inicializar_modelo` as a transition on the global
`classificador` state: it returns the pipeline handed to the caller and the
new state.  A fresh pipeline is constructed only when the state is `none`. -/
def inicializar_modelo (classificador : Option Pipeline) :
    Pipeline × Option Pipeline :=
  match classificador with
  | some modelo => (modelo, some modelo)
  | none => (pipelineGoEmotions, some pipelineGoEmotions)

/-- A concrete classifier output used to instantiate theorems: the 28
GoEmotions labels with the distinct scores 28/100, 27/100, ..., 1/100. -/
def rsExemplo : List ScoredLabel :=
  (TRADUCAO_EMOCOES.map Prod.fst).enum.map fun p =>
    { label := p.2, score := ((28 : ℚ) - p.1) / 100 }

/-- A concrete input list for `comparar_sentimentos`. -/
def textosExemplo : List String :=
  ["Estou muito feliz", "Que dia difícil"]

/-- A concrete classifier stub returning `rsExemplo` for every text. -/
def modeloExemplo : String → List ScoredLabel :=
  fun _ => rsExemplo

/-! Helper lemmas about the sorting and formatting primitives. -/

/-- Sorting permutes the classifier output. -/
theorem ordenar_perm (rs : List ScoredLabel) : (ordenarPorScore rs).Perm rs :=
  List.mergeSort_perm rs _

/-- Sorting preserves the length of the classifier output. -/
theorem ordenar_length (rs : List ScoredLabel) :
    (ordenarPorScore rs).length = rs.length :=
  (ordenar_perm rs).length_eq

/-- The sorted list is non-increasing by score. -/
theorem ordenar_sorted (rs : List ScoredLabel) :
    (ordenarPorScore rs).Pairwise fun a b => b.score ≤ a.score := by
  have h : (ordenarPorScore rs).Pairwise
      fun a b => (decide (b.score ≤ a.score)) = true :=
    List.sorted_mergeSort
      (fun a b c hab hbc => by
        simp only [decide_eq_true_eq] at *
        exact le_trans hbc hab)
      (fun a b => by
        simp only [Bool.or_eq_true, decide_eq_true_eq]
        exact le_total b.score a.score)
      rs
  exact h.imp fun hab => by simpa using hab

/-- The head of the sorted list is a maximal element of the input. -/
theorem head_max (rs : List ScoredLabel) (r0 : ScoredLabel)
    (tail : List ScoredLabel) (h : ordenarPorScore rs = r0 :: tail) :
    r0 ∈ rs ∧ ∀ r ∈ rs, r.score ≤ r0.score := by
  have hperm := ordenar_perm rs
  rw [h] at hperm
  refine ⟨hperm.mem_iff.mp (List.mem_cons_self _ _), ?_⟩
  intro r hr
  rcases List.mem_cons.mp (hperm.mem_iff.mpr hr) with h1 | h2
  · rw [h1]
  · have hs := ordenar_sorted rs
    rw [h] at hs
    exact (List.pairwise_cons.mp hs).1 r h2

/-- Python `round(x, n)` is monotone. -/
theorem pyRound_mono {x y : ℚ} (n : ℕ) (h : x ≤ y) :
    pyRound x n ≤ pyRound y n := by
  unfold pyRound
  have hp : (0 : ℚ) < 10 ^ n := by positivity
  have hr : round (x * 10 ^ n) ≤ round (y * 10 ^ n) := by
    rw [round_eq, round_eq]
    exact Int.floor_le_floor
      (add_le_add_right (mul_le_mul_of_nonneg_right h (le_of_lt hp)) _)
  exact (div_le_div_iff_of_pos_right hp).mpr (by exact_mod_cast hr)

/-- Python `l[:k]` for nonnegative `k` is `List.take`. -/
theorem pySliceTo_nonneg (l : List α) (k : ℤ) (hk : 0 ≤ k) :
    pySliceTo l k = l.take k.toNat := by
  simp [pySliceTo, hk]

/-- Shape of a successful run of `analisar_sentimento`: for `top_k ≥ 1` on a
nonempty classifier output, the tool answers with the head of the sorted list
as dominant emotion and the first `top_k` sorted entries formatted. -/
theorem analisar_sentimento_spec_aux (texto : String)
    (rs : List ScoredLabel) (k : ℤ) (hk : 1 ≤ k) (h0 : rs ≠ []) :
    ∃ r0 tail, ordenarPorScore rs = r0 :: tail ∧
      analisar_sentimento texto rs k = some {
        texto_analisado := texto
        total_emocoes := rs.length
        top_emocoes := (r0 :: tail.take (k.toNat - 1)).map formatEmocaoTop
        emocao_dominante := TRADUCAO_get r0.label
        emocao_dominante_original := r0.label
        confianca_dominante := fmtPct r0.score } := by
  cases hs : ordenarPorScore rs with
  | nil =>
    exfalso
    apply h0
    have hl := ordenar_length rs
    rw [hs] at hl
    exact List.length_eq_zero.mp hl.symm
  | cons r0 tail =>
    refine ⟨r0, tail, rfl, ?_⟩
    obtain ⟨m, hm⟩ : ∃ m, k.toNat = m + 1 := ⟨k.toNat - 1, by omega⟩
    have hslice : pySliceTo (ordenarPorScore rs) k = r0 :: tail.take m := by
      rw [pySliceTo_nonneg _ _ (by omega), hs, hm, List.take_succ_cons]
    simp only [analisar_sentimento, hslice]
    have : m = k.toNat - 1 := by omega
    rw [this]

/-- Shape of a successful run of `analisar_sentimento_detalhado` on a
nonempty classifier output. -/
theorem detalhado_spec_aux (texto : String) (rs : List ScoredLabel)
    (h0 : rs ≠ []) :
    ∃ r0 tail, ordenarPorScore rs = r0 :: tail ∧
      analisar_sentimento_detalhado texto rs = some {
        texto_analisado := texto
        emocao_dominante := TRADUCAO_get r0.label
        emocao_dominante_original := r0.label
        confianca_dominante := fmtPct r0.score
        resumo := {
          emocoes_alta_confianca :=
            ((r0 :: tail).filter fun r =>
              decide ((1 : ℚ) / 2 ≤ r.score)).length
          emocoes_media_confianca :=
            ((r0 :: tail).filter fun r =>
              decide ((1 : ℚ) / 10 ≤ r.score ∧ r.score < (1 : ℚ) / 2)).length
          emocoes_baixa_confianca :=
            ((r0 :: tail).filter fun r =>
              decide (r.score < (1 : ℚ) / 10)).length }
        todas_emocoes := (r0 :: tail).map formatEmocaoDetalhada } := by
  cases hs : ordenarPorScore rs with
  | nil =>
    exfalso
    apply h0
    have hl := ordenar_length rs
    rw [hs] at hl
    exact List.length_eq_zero.mp hl.symm
  | cons r0 tail =>
    refine ⟨r0, tail, rfl, ?_⟩
    simp only [analisar_sentimento_detalhado, hs]

/-- Shape of a successful run of the `comparar_sentimentos` loop body on a
nonempty classifier output. -/
theorem analiseDe_spec (idx : ℕ) (texto : String) (rs : List ScoredLabel)
    (h0 : rs ≠ []) :
    ∃ r0 tail, ordenarPorScore rs = r0 :: tail ∧
      analiseDe idx texto rs = some {
        texto_numero := idx
        texto := texto
        emocao_dominante := TRADUCAO_get r0.label
        emocao_dominante_original := r0.label
        confianca := fmtPct r0.score
        top_3_emocoes := ((r0 :: tail).take 3).map formatEmocaoTop3 } := by
  cases hs : ordenarPorScore rs with
  | nil =>
    exfalso
    apply h0
    have hl := ordenar_length rs
    rw [hs] at hl
    exact List.length_eq_zero.mp hl.symm
  | cons r0 tail =>
    refine ⟨r0, tail, rfl, ?_⟩
    simp only [analiseDe, hs]

/-- Three Boolean predicates of which exactly one holds on every element
split a list into three filters whose lengths add up to the list length. -/
theorem length_filter_partition {α : Type} (p q s : α → Bool) (l : List α)
    (h : ∀ a, (p a).toNat + (q a).toNat + (s a).toNat = 1) :
    (l.filter p).length + (l.filter q).length + (l.filter s).length =
      l.length := by
  induction l with
  | nil => simp
  | cons a t ih =>
    have ha := h a
    cases hp : p a <;> cases hq : q a <;> cases hs : s a <;>
        rw [hp, hq, hs] at ha <;>
      simp only [Bool.toNat_true, Bool.toNat_false] at ha <;>
        first
        | omega
        | (simp [List.filter_cons, hp, hq, hs, List.length_cons]
           omega)

/-- The three confidence tiers partition any list of scored labels: the three
filter lengths add up to the list length. -/
theorem tiers_partition (l : List ScoredLabel) :
    (l.filter fun r => decide ((1 : ℚ) / 2 ≤ r.score)).length +
      (l.filter fun r =>
        decide ((1 : ℚ) / 10 ≤ r.score ∧ r.score < (1 : ℚ) / 2)).length +
      (l.filter fun r => decide (r.score < (1 : ℚ) / 10)).length =
    l.length := by
  refine length_filter_partition _ _ _ l ?_
  intro r
  by_cases h1 : (1 : ℚ) / 2 ≤ r.score
  · have h2 : ¬ ((1 : ℚ) / 10 ≤ r.score ∧ r.score < (1 : ℚ) / 2) := by
      rintro ⟨-, hlt⟩
      linarith
    have h3 : ¬ r.score < (1 : ℚ) / 10 := by linarith
    simp only [decide_eq_true h1, decide_eq_false h2, decide_eq_false h3]
    rfl
  · by_cases h2 : (1 : ℚ) / 10 ≤ r.score
    · have h2' : (1 : ℚ) / 10 ≤ r.score ∧ r.score < (1 : ℚ) / 2 :=
        ⟨h2, not_le.mp h1⟩
      have h3 : ¬ r.score < (1 : ℚ) / 10 := by linarith
      simp only [decide_eq_false h1, decide_eq_true h2', decide_eq_false h3]
      rfl
    · have h2' : ¬ ((1 : ℚ) / 10 ≤ r.score ∧ r.score < (1 : ℚ) / 2) := by
        rintro ⟨hge, -⟩
        exact h2 hge
      have h3 : r.score < (1 : ℚ) / 10 := by linarith
      simp only [decide_eq_false h1, decide_eq_false h2', decide_eq_true h3]
      rfl

/-- Characterization of the tier tag: each of the three names is assigned
exactly on its threshold interval. -/
theorem nivelDe_spec (q : ℚ) :
    (nivelDe q = "alta" ↔ (1 : ℚ) / 2 ≤ q) ∧
    (nivelDe q = "média" ↔ ((1 : ℚ) / 10 ≤ q ∧ q < (1 : ℚ) / 2)) ∧
    (nivelDe q = "baixa" ↔ q < (1 : ℚ) / 10) := by
  unfold nivelDe
  split_ifs with h1 h2
  · exact ⟨⟨fun _ => h1, fun _ => rfl⟩,
      ⟨fun h => absurd h (by decide),
        fun hc => absurd h1 (not_le.mpr hc.2)⟩,
      ⟨fun h => absurd h (by decide),
        fun hc => absurd h1 (not_le.mpr (by linarith))⟩⟩
  · exact ⟨⟨fun h => absurd h (by decide), fun hc => absurd hc h1⟩,
      ⟨fun _ => ⟨h2, not_le.mp h1⟩, fun _ => rfl⟩,
      ⟨fun h => absurd h (by decide),
        fun hc => absurd h2 (not_le.mpr hc)⟩⟩
  · exact ⟨⟨fun h => absurd h (by decide), fun hc => absurd hc h1⟩,
      ⟨fun h => absurd h (by decide), fun hc => absurd hc.1 h2⟩,
      ⟨fun _ => not_le.mp h2, fun _ => rfl⟩⟩

/-- Lookup of a present key in an association list with distinct keys. -/
theorem lookup_eq_of_mem {l : List (String × String)}
    (hnd : (l.map Prod.fst).Nodup) {k v : String} (h : (k, v) ∈ l) :
    l.lookup k = some v := by
  induction l with
  | nil => cases h
  | cons p t ih =>
    simp only [List.map_cons, List.nodup_cons] at hnd
    rcases List.mem_cons.mp h with h1 | h2
    · rw [← h1]
      simp [List.lookup]
    · have hk : (k == p.1) = false := by
        apply beq_false_of_ne
        intro he
        apply hnd.1
        rw [← he]
        exact List.mem_map_of_mem Prod.fst h2
      cases p with
      | mk a b =>
        simp only [List.lookup, hk]
        exact ih hnd.2 h2

/-- Lookup of an absent key in an association list. -/
theorem lookup_eq_none_of_not_mem {l : List (String × String)} {k : String}
    (h : k ∉ l.map Prod.fst) : l.lookup k = none := by
  induction l with
  | nil => rfl
  | cons p t ih =>
    simp only [List.map_cons, List.mem_cons, not_or] at h
    have hk : (k == p.1) = false := by
      apply beq_false_of_ne
      intro he
      exact h.1 he
    cases p with
    | mk a b =>
      simp only [List.lookup, hk]
      exact ih h.2

/-- A membership-aware version of `List.Forall₂.imp`. -/
theorem forall2_imp_mem {α β : Type} {R S : α → β → Prop}
    {l₁ : List α} {l₂ : List β} (h : List.Forall₂ R l₁ l₂)
    (himp : ∀ a b, a ∈ l₁ → R a b → S a b) : List.Forall₂ S l₁ l₂ := by
  induction h with
  | nil => constructor
  | cons hr ht ih =>
    exact List.Forall₂.cons (himp _ _ (List.mem_cons_self _ _) hr)
      (ih fun a b ha => himp a b (List.mem_cons_of_mem _ ha))

/-- Shape of a successful run of the whole `comparar_sentimentos` loop: with
every classifier output nonempty, the loop succeeds, echoes the texts in
order, numbers them consecutively from `idx`, and each analysis entry is the
formatted head and top 3 of its sorted classifier output. -/
theorem analisesDe_spec (modelo : String → List ScoredLabel)
    (textos : List String) (idx : ℕ)
    (h : ∀ t ∈ textos, modelo t ≠ []) :
    ∃ analises, analisesDe modelo textos idx = some analises ∧
      analises.map AnaliseTexto.texto = textos ∧
      analises.map AnaliseTexto.texto_numero =
        List.range' idx textos.length ∧
      List.Forall₂ (fun t a =>
        ∃ r0 tail, ordenarPorScore (modelo t) = r0 :: tail ∧
          a.texto = t ∧
          a.emocao_dominante = TRADUCAO_get r0.label ∧
          a.emocao_dominante_original = r0.label ∧
          a.confianca = fmtPct r0.score ∧
          a.top_3_emocoes = ((r0 :: tail).take 3).map formatEmocaoTop3)
        textos analises := by
  induction textos generalizing idx with
  | nil => exact ⟨[], rfl, rfl, rfl, List.Forall₂.nil⟩
  | cons t ts ih =>
    obtain ⟨r0, tail, hs, ha⟩ :=
      analiseDe_spec idx t (modelo t) (h t (List.mem_cons_self _ _))
    obtain ⟨as, has, hmap, hnum, hrel⟩ :=
      ih (idx + 1) fun u hu => h u (List.mem_cons_of_mem _ hu)
    refine ⟨{ texto_numero := idx
              texto := t
              emocao_dominante := TRADUCAO_get r0.label
              emocao_dominante_original := r0.label
              confianca := fmtPct r0.score
              top_3_emocoes :=
                ((r0 :: tail).take 3).map formatEmocaoTop3 } :: as,
      ?_, ?_, ?_, ?_⟩
    · simp only [analisesDe, ha, has, Option.bind_eq_bind, Option.some_bind,
        Option.pure_def]
    · simp only [List.map_cons, hmap]
    · simp only [List.map_cons, hnum, List.length_cons, List.range'_succ]
    · exact List.Forall₂.cons
        ⟨r0, tail, hs, rfl, rfl, rfl, rfl, rfl⟩ hrel

/-! Claims. -/

/-- C1 (amended to `top_k ≥ 1`): for every text and every integer
`top_k ≥ 1`, on a 28-label classifier output `analisar_sentimento` succeeds
and its `top_emocoes` list has length `min top_k 28` and is sorted
non-increasing by probability. -/
theorem C1_top_emocoes_length_sorted (texto : String) (rs : List ScoredLabel)
    (k : ℤ) (hk : 1 ≤ k) (hrs : rs.length = 28) :
    ∃ resp, analisar_sentimento texto rs k = some resp ∧
      (resp.top_emocoes.length : ℤ) = min k 28 ∧
      resp.top_emocoes.Pairwise
        fun a b => b.probabilidade ≤ a.probabilidade := by
  obtain ⟨r0, tail, hs, hsome⟩ := analisar_sentimento_spec_aux texto rs k hk
    (by intro he; rw [he] at hrs; simp at hrs)
  have htail : tail.length = 27 := by
    have hl := ordenar_length rs
    rw [hs, hrs] at hl
    simpa using hl
  refine ⟨_, hsome, ?_, ?_⟩
  · show (((r0 :: tail.take (k.toNat - 1)).map formatEmocaoTop).length : ℤ) =
      min k 28
    rw [List.length_map, List.length_cons, List.length_take, htail]
    omega
  · show ((r0 :: tail.take (k.toNat - 1)).map formatEmocaoTop).Pairwise
      fun a b => b.probabilidade ≤ a.probabilidade
    have hp : ((ordenarPorScore rs).take k.toNat).Pairwise
        (fun a b => b.score ≤ a.score) :=
      List.Pairwise.sublist (List.take_sublist _ _) (ordenar_sorted rs)
    have hm : k.toNat = (k.toNat - 1) + 1 := by omega
    rw [hs, hm, List.take_succ_cons] at hp
    rw [List.pairwise_map]
    exact hp.imp fun h =>
      pyRound_mono 2 (mul_le_mul_of_nonneg_right h (by norm_num))

/-- C1 witness at a concrete input. -/
theorem C1_top_emocoes_length_sorted_witness :
    (1 : ℤ) ≤ 5 ∧ rsExemplo.length = 28 ∧
    ∃ resp, analisar_sentimento "Estou muito feliz" rsExemplo 5 = some resp ∧
      (resp.top_emocoes.length : ℤ) = min 5 28 ∧
      resp.top_emocoes.Pairwise
        fun a b => b.probabilidade ≤ a.probabilidade :=
  ⟨by norm_num, by with_unfolding_all decide,
    C1_top_emocoes_length_sorted "Estou muito feliz" rsExemplo 5
      (by norm_num) (by with_unfolding_all decide)⟩

/-- C1 counterexample to the claim as stated (for EVERY integer K): at
`top_k = 0` the tool raises (returns no response), so no response with
`top_emocoes` of length `min 0 28` exists. -/
theorem C1_top_k_zero_counterexample :
    rsExemplo.length = 28 ∧
    ¬ ∃ resp,
        analisar_sentimento "Estou muito feliz" rsExemplo 0 = some resp ∧
        (resp.top_emocoes.length : ℤ) = min 0 28 ∧
        resp.top_emocoes.Pairwise
          fun a b => b.probabilidade ≤ a.probabilidade := by
  refine ⟨by with_unfolding_all decide, ?_⟩
  rintro ⟨resp, hsome, -, -⟩
  have h : analisar_sentimento "Estou muito feliz" rsExemplo 0 = none := by
    have hsl : pySliceTo (ordenarPorScore rsExemplo) 0 = [] := by
      simp [pySliceTo]
    simp [analisar_sentimento, hsl]
  rw [h] at hsome
  cases hsome

/-- C2: on a 28-label classifier output, `analisar_sentimento_detalhado`
succeeds; `todas_emocoes` holds all 28 scored labels (a permutation of the
formatted input), sorted non-increasing by probability, and each entry's
`nivel` tag agrees with the thresholds: alta iff score ≥ 0.5, média iff
0.1 ≤ score < 0.5, baixa iff score < 0.1. -/
theorem C2_todas_emocoes_niveis (texto : String) (rs : List ScoredLabel)
    (hrs : rs.length = 28) :
    ∃ resp, analisar_sentimento_detalhado texto rs = some resp ∧
      resp.todas_emocoes.length = 28 ∧
      resp.todas_emocoes.Perm (rs.map formatEmocaoDetalhada) ∧
      resp.todas_emocoes.Pairwise
        (fun a b => b.probabilidade ≤ a.probabilidade) ∧
      ∀ e ∈ resp.todas_emocoes, ∃ r ∈ rs, e = formatEmocaoDetalhada r ∧
        (e.nivel = "alta" ↔ (1 : ℚ) / 2 ≤ r.score) ∧
        (e.nivel = "média" ↔
          ((1 : ℚ) / 10 ≤ r.score ∧ r.score < (1 : ℚ) / 2)) ∧
        (e.nivel = "baixa" ↔ r.score < (1 : ℚ) / 10) := by
  obtain ⟨r0, tail, hs, hsome⟩ := detalhado_spec_aux texto rs
    (by intro he; rw [he] at hrs; simp at hrs)
  refine ⟨_, hsome, ?_, ?_, ?_, ?_⟩
  · show ((r0 :: tail).map formatEmocaoDetalhada).length = 28
    rw [← hs, List.length_map, ordenar_length, hrs]
  · show ((r0 :: tail).map formatEmocaoDetalhada).Perm
      (rs.map formatEmocaoDetalhada)
    rw [← hs]
    exact (ordenar_perm rs).map _
  · show ((r0 :: tail).map formatEmocaoDetalhada).Pairwise
      fun a b => b.probabilidade ≤ a.probabilidade
    rw [← hs, List.pairwise_map]
    exact (ordenar_sorted rs).imp fun h =>
      pyRound_mono 2 (mul_le_mul_of_nonneg_right h (by norm_num))
  · intro e he
    have he' : e ∈ ((r0 :: tail).map formatEmocaoDetalhada) := he
    rw [← hs] at he'
    obtain ⟨r, hr, rfl⟩ := List.mem_map.mp he'
    refine ⟨r, (ordenar_perm rs).mem_iff.mp hr, rfl, ?_, ?_, ?_⟩
    · exact (nivelDe_spec r.score).1
    · exact (nivelDe_spec r.score).2.1
    · exact (nivelDe_spec r.score).2.2

/-- C2 witness at a concrete input. -/
theorem C2_todas_emocoes_niveis_witness :
    rsExemplo.length = 28 ∧
    ∃ resp, analisar_sentimento_detalhado "Que surpresa" rsExemplo =
        some resp ∧
      resp.todas_emocoes.length = 28 ∧
      resp.todas_emocoes.Perm (rsExemplo.map formatEmocaoDetalhada) ∧
      resp.todas_emocoes.Pairwise
        (fun a b => b.probabilidade ≤ a.probabilidade) ∧
      ∀ e ∈ resp.todas_emocoes, ∃ r ∈ rsExemplo,
        e = formatEmocaoDetalhada r ∧
        (e.nivel = "alta" ↔ (1 : ℚ) / 2 ≤ r.score) ∧
        (e.nivel = "média" ↔
          ((1 : ℚ) / 10 ≤ r.score ∧ r.score < (1 : ℚ) / 2)) ∧
        (e.nivel = "baixa" ↔ r.score < (1 : ℚ) / 10) :=
  ⟨by with_unfolding_all decide,
    C2_todas_emocoes_niveis "Que surpresa" rsExemplo
      (by with_unfolding_all decide)⟩

/-- C3: on a 28-label classifier output the three `resumo` tier counts of
`analisar_sentimento_detalhado` sum to 28. -/
theorem C3_resumo_soma_28 (texto : String) (rs : List ScoredLabel)
    (hrs : rs.length = 28) :
    ∃ resp, analisar_sentimento_detalhado texto rs = some resp ∧
      resp.resumo.emocoes_alta_confianca +
        resp.resumo.emocoes_media_confianca +
        resp.resumo.emocoes_baixa_confianca = 28 := by
  obtain ⟨r0, tail, hs, hsome⟩ := detalhado_spec_aux texto rs
    (by intro he; rw [he] at hrs; simp at hrs)
  refine ⟨_, hsome, ?_⟩
  show ((r0 :: tail).filter fun r =>
      decide ((1 : ℚ) / 2 ≤ r.score)).length +
    ((r0 :: tail).filter fun r =>
      decide ((1 : ℚ) / 10 ≤ r.score ∧ r.score < (1 : ℚ) / 2)).length +
    ((r0 :: tail).filter fun r => decide (r.score < (1 : ℚ) / 10)).length = 28
  rw [← hs, tiers_partition, ordenar_length, hrs]

/-- C3 witness at a concrete input. -/
theorem C3_resumo_soma_28_witness :
    rsExemplo.length = 28 ∧
    ∃ resp, analisar_sentimento_detalhado "Que surpresa" rsExemplo =
        some resp ∧
      resp.resumo.emocoes_alta_confianca +
        resp.resumo.emocoes_media_confianca +
        resp.resumo.emocoes_baixa_confianca = 28 :=
  ⟨by with_unfolding_all decide,
    C3_resumo_soma_28 "Que surpresa" rsExemplo
      (by with_unfolding_all decide)⟩

/-- C4: when every classifier output is nonempty, `comparar_sentimentos`
succeeds; its `analises` list has the length of the input, echoes the input
texts in order (the map of `texto` fields is the input list), numbers them
1, 2, ... in order (the map of `texto_numero` fields is `[1, ..., n]`), and
`total_textos_analisados` is the input length. -/
theorem C4_comparar_preserva_ordem (textos : List String)
    (modelo : String → List ScoredLabel)
    (h : ∀ t ∈ textos, modelo t ≠ []) :
    ∃ resp, comparar_sentimentos textos modelo = some resp ∧
      resp.analises.length = textos.length ∧
      resp.analises.map AnaliseTexto.texto = textos ∧
      resp.analises.map AnaliseTexto.texto_numero =
        List.range' 1 textos.length ∧
      resp.total_textos_analisados = textos.length := by
  obtain ⟨as, has, hmap, hnum, hrel⟩ := analisesDe_spec modelo textos 1 h
  refine ⟨⟨textos.length, as⟩, ?_, ?_, hmap, hnum, rfl⟩
  · simp [comparar_sentimentos, has]
  · have hl := congrArg List.length hmap
    simpa using hl

/-- C4 witness at a concrete input. -/
theorem C4_comparar_preserva_ordem_witness :
    (∀ t ∈ textosExemplo, modeloExemplo t ≠ []) ∧
    ∃ resp, comparar_sentimentos textosExemplo modeloExemplo = some resp ∧
      resp.analises.length = textosExemplo.length ∧
      resp.analises.map AnaliseTexto.texto = textosExemplo ∧
      resp.analises.map AnaliseTexto.texto_numero =
        List.range' 1 textosExemplo.length ∧
      resp.total_textos_analisados = textosExemplo.length :=
  ⟨by with_unfolding_all decide,
    C4_comparar_preserva_ordem textosExemplo modeloExemplo
      (by with_unfolding_all decide)⟩

/-- C5: when every classifier output has the full 28 labels,
`comparar_sentimentos` succeeds and, entry by entry, `top_3_emocoes` has
length exactly 3 and is the formatting of a list of scored labels sorted
non-increasing by probability. -/
theorem C5_top3_length_sorted (textos : List String)
    (modelo : String → List ScoredLabel)
    (h : ∀ t ∈ textos, (modelo t).length = 28) :
    ∃ resp, comparar_sentimentos textos modelo = some resp ∧
      List.Forall₂ (fun t a =>
        a.top_3_emocoes.length = 3 ∧
        ∃ l3 : List ScoredLabel,
          a.top_3_emocoes = l3.map formatEmocaoTop3 ∧
          l3.Pairwise (fun x y => y.score ≤ x.score))
        textos resp.analises := by
  have h' : ∀ t ∈ textos, modelo t ≠ [] := by
    intro t ht he
    have h28 := h t ht
    rw [he] at h28
    simp at h28
  obtain ⟨as, has, hmap, hnum, hrel⟩ := analisesDe_spec modelo textos 1 h'
  refine ⟨⟨textos.length, as⟩, by simp [comparar_sentimentos, has], ?_⟩
  refine forall2_imp_mem hrel ?_
  rintro t a ht ⟨r0, tail, hs, -, -, -, -, htop⟩
  have hlen : (r0 :: tail).length = 28 := by
    rw [← hs, ordenar_length]
    exact h t ht
  have hsorted : (r0 :: tail).Pairwise fun x y => y.score ≤ x.score := by
    rw [← hs]
    exact ordenar_sorted (modelo t)
  constructor
  · rw [htop, List.length_map, List.length_take, hlen]
    norm_num
  · exact ⟨(r0 :: tail).take 3, htop,
      List.Pairwise.sublist (List.take_sublist _ _) hsorted⟩

/-- C5 witness at a concrete input. -/
theorem C5_top3_length_sorted_witness :
    (∀ t ∈ textosExemplo, (modeloExemplo t).length = 28) ∧
    ∃ resp, comparar_sentimentos textosExemplo modeloExemplo = some resp ∧
      List.Forall₂ (fun t a =>
        a.top_3_emocoes.length = 3 ∧
        ∃ l3 : List ScoredLabel,
          a.top_3_emocoes = l3.map formatEmocaoTop3 ∧
          l3.Pairwise (fun x y => y.score ≤ x.score))
        textosExemplo resp.analises :=
  ⟨by with_unfolding_all decide,
    C5_top3_length_sorted textosExemplo modeloExemplo
      (by with_unfolding_all decide)⟩

/-- C6 (amended): every scored-label entry of `analisar_sentimento` and of
`analisar_sentimento_detalhado` carries the numeric `probabilidade` field
`round(score * 100, 2)` together with the `porcentagem` string that is that
number followed by a literal percent sign; the top-3 entries of
`comparar_sentimentos` carry only the formatted string (number followed by
percent sign) in their `probabilidade` field, with no separate numeric
field. -/
theorem C6_campos_percentuais (r : ScoredLabel) :
    (formatEmocaoTop r).probabilidade = pyRound (r.score * 100) 2 ∧
    (formatEmocaoTop r).porcentagem =
      toString (pyRound (r.score * 100) 2) ++ "%" ∧
    (formatEmocaoDetalhada r).probabilidade = pyRound (r.score * 100) 2 ∧
    (formatEmocaoDetalhada r).porcentagem =
      toString (pyRound (r.score * 100) 2) ++ "%" ∧
    (formatEmocaoTop3 r).probabilidade =
      toString (pyRound (r.score * 100) 2) ++ "%" :=
  ⟨rfl, rfl, rfl, rfl, rfl⟩

/-- C6 counterexample to the claim as stated: in `comparar_sentimentos` the
top-3 entries have NO numeric probability field; their `probabilidade` field
is the formatted percentage string, which differs from the bare number
`round(p * 100, 2)` (at p = 1/2 it is "50%", not "50"). -/
theorem C6_comparar_sem_campo_numerico :
    (formatEmocaoTop3 { label := "joy", score := 1 / 2 }).probabilidade ≠
      toString (pyRound ((1 : ℚ) / 2 * 100) 2) ∧
    (formatEmocaoTop3 { label := "joy", score := 1 / 2 }).probabilidade =
      toString (pyRound ((1 : ℚ) / 2 * 100) 2) ++ "%" := by
  refine ⟨?_, ?_⟩ <;> with_unfolding_all decide

/-- C7: each of the three tools reports as dominant emotion a scored label
of maximal probability among the classifier output: its translated name,
its original label and its formatted confidence. -/
theorem C7_dominante_maximal (texto : String) (rs : List ScoredLabel)
    (k : ℤ) (textos : List String) (modelo : String → List ScoredLabel)
    (hk : 1 ≤ k) (h0 : rs ≠ []) (hm : ∀ t ∈ textos, modelo t ≠ []) :
    (∃ resp, analisar_sentimento texto rs k = some resp ∧
      ∃ r ∈ rs, resp.emocao_dominante = TRADUCAO_get r.label ∧
        resp.emocao_dominante_original = r.label ∧
        resp.confianca_dominante = fmtPct r.score ∧
        ∀ r' ∈ rs, r'.score ≤ r.score) ∧
    (∃ resp, analisar_sentimento_detalhado texto rs = some resp ∧
      ∃ r ∈ rs, resp.emocao_dominante = TRADUCAO_get r.label ∧
        resp.emocao_dominante_original = r.label ∧
        resp.confianca_dominante = fmtPct r.score ∧
        ∀ r' ∈ rs, r'.score ≤ r.score) ∧
    (∃ resp, comparar_sentimentos textos modelo = some resp ∧
      List.Forall₂ (fun t a => ∃ r ∈ modelo t,
        a.emocao_dominante = TRADUCAO_get r.label ∧
        a.emocao_dominante_original = r.label ∧
        a.confianca = fmtPct r.score ∧
        ∀ r' ∈ modelo t, r'.score ≤ r.score) textos resp.analises) := by
  refine ⟨?_, ?_, ?_⟩
  · obtain ⟨r0, tail, hs, hsome⟩ :=
      analisar_sentimento_spec_aux texto rs k hk h0
    obtain ⟨hr0, hmax⟩ := head_max rs r0 tail hs
    exact ⟨_, hsome, r0, hr0, rfl, rfl, rfl, hmax⟩
  · obtain ⟨r0, tail, hs, hsome⟩ := detalhado_spec_aux texto rs h0
    obtain ⟨hr0, hmax⟩ := head_max rs r0 tail hs
    exact ⟨_, hsome, r0, hr0, rfl, rfl, rfl, hmax⟩
  · obtain ⟨as, has, hmap, hnum, hrel⟩ := analisesDe_spec modelo textos 1 hm
    refine ⟨⟨textos.length, as⟩, by simp [comparar_sentimentos, has], ?_⟩
    refine forall2_imp_mem hrel ?_
    rintro t a ht ⟨r0, tail, hs, -, hdom, hdomo, hconf, -⟩
    obtain ⟨hr0, hmax⟩ := head_max (modelo t) r0 tail hs
    exact ⟨r0, hr0, hdom, hdomo, hconf, hmax⟩

/-- C7 witness at a concrete input. -/
theorem C7_dominante_maximal_witness :
    (1 : ℤ) ≤ 5 ∧ rsExemplo ≠ [] ∧
    (∀ t ∈ textosExemplo, modeloExemplo t ≠ []) ∧
    ((∃ resp, analisar_sentimento "Estou muito feliz" rsExemplo 5 =
        some resp ∧
      ∃ r ∈ rsExemplo, resp.emocao_dominante = TRADUCAO_get r.label ∧
        resp.emocao_dominante_original = r.label ∧
        resp.confianca_dominante = fmtPct r.score ∧
        ∀ r' ∈ rsExemplo, r'.score ≤ r.score) ∧
    (∃ resp, analisar_sentimento_detalhado "Estou muito feliz" rsExemplo =
        some resp ∧
      ∃ r ∈ rsExemplo, resp.emocao_dominante = TRADUCAO_get r.label ∧
        resp.emocao_dominante_original = r.label ∧
        resp.confianca_dominante = fmtPct r.score ∧
        ∀ r' ∈ rsExemplo, r'.score ≤ r.score) ∧
    (∃ resp, comparar_sentimentos textosExemplo modeloExemplo = some resp ∧
      List.Forall₂ (fun t a => ∃ r ∈ modeloExemplo t,
        a.emocao_dominante = TRADUCAO_get r.label ∧
        a.emocao_dominante_original = r.label ∧
        a.confianca = fmtPct r.score ∧
        ∀ r' ∈ modeloExemplo t, r'.score ≤ r.score)
        textosExemplo resp.analises)) :=
  ⟨by norm_num, by with_unfolding_all decide, by with_unfolding_all decide,
    C7_dominante_maximal "Estou muito feliz" rsExemplo 5 textosExemplo
      modeloExemplo (by norm_num) (by with_unfolding_all decide)
      (by with_unfolding_all decide)⟩

/-- C8: the classifier is initialized at most once per process. The first
call on the empty state constructs and caches the GoEmotions pipeline; every
call on a populated state returns the cached instance unchanged, and calling
`inicializar_modelo` on any state reached by it changes nothing. -/
theorem C8_inicializar_modelo_cache :
    inicializar_modelo none = (pipelineGoEmotions, some pipelineGoEmotions) ∧
    (∀ c : Pipeline, inicializar_modelo (some c) = (c, some c)) ∧
    (∀ s : Option Pipeline,
      inicializar_modelo ((inicializar_modelo s).2) =
        ((inicializar_modelo s).1, (inicializar_modelo s).2)) :=
  ⟨rfl, fun _ => rfl, fun s => by cases s <;> rfl⟩

/-- C9: translation-table lookup with fallback: the table has 28 keys, a
present label maps to its table entry, an absent label falls back to itself
unchanged, and every formatter of the three tools emits the translated name
in `emocao` together with the original label in `emocao_original`. -/
theorem C9_traducao_fallback :
    TRADUCAO_EMOCOES.length = 28 ∧
    (∀ l t : String, (l, t) ∈ TRADUCAO_EMOCOES → TRADUCAO_get l = t) ∧
    (∀ l : String, l ∉ TRADUCAO_EMOCOES.map Prod.fst → TRADUCAO_get l = l) ∧
    (∀ r : ScoredLabel,
      (formatEmocaoTop r).emocao = TRADUCAO_get r.label ∧
      (formatEmocaoTop r).emocao_original = r.label ∧
      (formatEmocaoDetalhada r).emocao = TRADUCAO_get r.label ∧
      (formatEmocaoDetalhada r).emocao_original = r.label ∧
      (formatEmocaoTop3 r).emocao = TRADUCAO_get r.label ∧
      (formatEmocaoTop3 r).emocao_original = r.label) := by
  refine ⟨rfl, ?_, ?_, fun r => ⟨rfl, rfl, rfl, rfl, rfl, rfl⟩⟩
  · intro l t h
    have hnd : (TRADUCAO_EMOCOES.map Prod.fst).Nodup := by decide
    unfold TRADUCAO_get
    rw [lookup_eq_of_mem hnd h]
    rfl
  · intro l h
    unfold TRADUCAO_get
    rw [lookup_eq_none_of_not_mem h]
    rfl

/-- C9 witness: a present key is translated, an absent key falls back. -/
theorem C9_traducao_fallback_witness :
    ("joy", "alegria") ∈ TRADUCAO_EMOCOES ∧
    "saudade" ∉ TRADUCAO_EMOCOES.map Prod.fst ∧
    TRADUCAO_get "joy" = "alegria" ∧ TRADUCAO_get "saudade" = "saudade" :=
  ⟨by decide, by decide,
    C9_traducao_fallback.2.1 "joy" "alegria" (by decide),
    C9_traducao_fallback.2.2.1 "saudade" (by decide)⟩

/-- C10 (amended): at `top_k = 0` `analisar_sentimento` fails (the top slice
is empty, so the index-0 access has no element); `top_k ≥ 1` on a nonempty
classifier output is sufficient for the tool to succeed, but not necessary:
Python negative-slice semantics can also yield a nonempty slice. -/
theorem C10_top_k_zero_falha (texto : String) (rs : List ScoredLabel) :
    analisar_sentimento texto rs 0 = none ∧
    ∀ k : ℤ, 1 ≤ k → rs ≠ [] →
      (analisar_sentimento texto rs k).isSome = true := by
  constructor
  · have hsl : pySliceTo (ordenarPorScore rs) 0 = [] := by
      simp [pySliceTo]
    simp [analisar_sentimento, hsl]
  · intro k hk h0
    obtain ⟨r0, tail, hs, hsome⟩ :=
      analisar_sentimento_spec_aux texto rs k hk h0
    rw [hsome]
    rfl

/-- C10 witness at a concrete input. -/
theorem C10_top_k_zero_falha_witness :
    analisar_sentimento "Interessante" rsExemplo 0 = none ∧
    (analisar_sentimento "Interessante" rsExemplo 5).isSome = true :=
  ⟨(C10_top_k_zero_falha "Interessante" rsExemplo).1,
    (C10_top_k_zero_falha "Interessante" rsExemplo).2 5 (by norm_num)
      (by with_unfolding_all decide)⟩

/-- C10 counterexample to the parenthetical of the claim as stated
(`top_k ≥ 1` required for the tool to succeed): on a full 28-label
classifier output the tool also succeeds at `top_k = -1`, whose Python
slice `[:-1]` keeps 27 elements. -/
theorem C10_top_k_negativo_sucede :
    rsExemplo.length = 28 ∧
    (analisar_sentimento "Interessante" rsExemplo (-1)).isSome = true ∧
    ¬ (1 ≤ (-1 : ℤ)) := by
  refine ⟨by with_unfolding_all decide, by with_unfolding_all decide,
    by norm_num⟩
